import Mathlib

/-!
Verification development for the VASP converter configuration parser
(`python/converters/vasp/python/inpconf.py`, class `ConfigParameters`).

Modelling conventions (a shallow embedding of the Python 2 source):

* Python exceptions are modelled by the `Except PyErr` monad; each kind of
  exception the source can raise gets one `PyErr` constructor.  Error message
  strings are reproduced up to punctuation (Python quote characters inside
  messages are dropped, and one message interpolating the whole section list
  keeps only its fixed prefix; no claim inspects those fragments).
* Python dictionaries holding shell/group records are modelled as structures
  whose optional entries are `Option` fields; a key is "present" exactly when
  the field is `some`.
* Python `float` values are modelled exactly: a parsed literal becomes a
  `PyFloat`, a signed decimal mantissa together with a power-of-ten exponent
  (`⟨m, e⟩` denotes `m * 10 ^ e`).  The engine never computes or compares
  these values — it only stores and moves them — so this exact decimal
  carrier is faithful for every literal the parser can meet.
* `ConfigParser` behaviour is modelled at the point of use: a document is a
  list of sections in file order, each a list of (already lower-cased) option
  keys with raw string values; `cp.get` is association lookup.
* The source file contains one purely syntactic slip: line 396 lacks a closing
  parenthesis after the `raise Exception(...)` call.  The embedding repairs
  that single token (the evidently intended statement) and models everything
  else, including the genuine semantic slips of the file, exactly as written:
  - `find_shell_by_user_index` returns `shell` alone, while its caller
    unpacks `ind, shell = find_shell_by_user_index(...)`; a shell dictionary
    always has at least 3 keys (`user_index`, `ion_list`, `lshell`), so the
    unpacking raises `ValueError: too many values to unpack`;
  - line 372 reads `self.shells[ind]` where the local name `ind` is not yet
    bound (it is assigned only at line 394, making it a function local), so
    the first iteration of the optional-parameter loop raises a NameError
    (`UnboundLocalError`);
  - line 377 calls `.update` on the *list* `self.groups` (lists have no
    `update` method), an AttributeError;
  - the tail of `parse_input` (lines 447..464) refers to the names
    `nsections`, `sections`, `cp` and `required`, none of which are defined
    in its scope, so it raises a NameError on `nsections` whenever reached.
-/

deriving instance DecidableEq for Except

namespace InpConf

/-- The exceptions the source can raise, one constructor per kind.
`keyError` carries the list of keys that the interpolated message
`"Required parameters are: %s" % (self.gr_required.keys())` displays. -/
inductive PyErr where
  | assertionError (msg : String)
  | keyError (listedKeys : List String)
  | valueError (msg : String)
  | nameError (name : String)
  | attributeError (msg : String)
  | notImplementedError (msg : String)
  | indexError
  | exception (msg : String)
  deriving DecidableEq, Repr

/-- The whitespace characters of Python `str.split()` with no argument. -/
def pyIsSpace (c : Char) : Bool :=
  c = ' ' || c = '\t' || c = '\n' || c = '\r' || c = '\x0b' || c = '\x0c'

/-- Core of Python `str.split()`: split a character list on runs of
whitespace, discarding empty fields. -/
def splitWsAux : List Char → List Char → List (List Char)
  | [], acc => if acc.isEmpty then [] else [acc.reverse]
  | c :: cs, acc =>
    if pyIsSpace c then
      if acc.isEmpty then splitWsAux cs [] else acc.reverse :: splitWsAux cs []
    else splitWsAux cs (c :: acc)

/-- Python `s.split()` (no argument): fields are maximal runs of
non-whitespace characters. -/
def pySplit (s : String) : List String :=
  (splitWsAux s.data []).map List.asString

/-- Decimal value of a digit list (most significant first). -/
def digitsVal (cs : List Char) : Nat :=
  cs.foldl (fun a c => 10 * a + (c.toNat - 48)) 0

/-- Core of Python `int(token)` on a whitespace-free token: an optional
sign followed by one or more decimal digits, consuming the whole token. -/
def pyIntCore (cs : List Char) : Option Int :=
  let core : List Char → Option Int := fun ds =>
    if ds ≠ [] && ds.all Char.isDigit then some (digitsVal ds) else none
  match cs with
  | '-' :: rest => (core rest).map Int.neg
  | '+' :: rest => core rest
  | _ => core cs

/-- Python `int(token)` for the whitespace-free tokens the source feeds it. -/
def pyInt (s : String) : Option Int :=
  pyIntCore s.data

/-- The exact value of a finite Python float literal: `⟨m, e⟩` denotes the
real number `m * 10 ^ e`.  The configuration engine never computes with
float values, so this syntactic decimal representation is a faithful model
of `float(token)`. -/
structure PyFloat where
  mant : Int
  exp : Int
  deriving DecidableEq, Repr

/-- Exponent part of a Python float literal: optional `e`/`E`, optional
sign, digits.  Returns the exponent and requires full consumption. -/
def pyFloatExp : List Char → Option Int
  | [] => some 0
  | e :: rest =>
    if e = 'e' || e = 'E' then
      match rest with
      | '-' :: ds => if ds ≠ [] && ds.all Char.isDigit then some (-(digitsVal ds : Int)) else none
      | '+' :: ds => if ds ≠ [] && ds.all Char.isDigit then some (digitsVal ds : Int) else none
      | ds => if ds ≠ [] && ds.all Char.isDigit then some (digitsVal ds : Int) else none
    else none

/-- Unsigned part of a Python finite float literal:
`digits [. digits] [exp]` or `. digits [exp]`.  Returns mantissa and
exponent. -/
def pyFloatCore (cs : List Char) : Option (Nat × Int) := do
  let intPart := cs.takeWhile Char.isDigit
  let rest := cs.dropWhile Char.isDigit
  match rest with
  | '.' :: rest2 =>
    let fracPart := rest2.takeWhile Char.isDigit
    if intPart = [] && fracPart = [] then none
    else do
      let e ← pyFloatExp (rest2.dropWhile Char.isDigit)
      some (digitsVal (intPart ++ fracPart), e - fracPart.length)
  | _ =>
    if intPart = [] then none
    else do
      let e ← pyFloatExp rest
      some (digitsVal intPart, e)

/-- Python `float(token)` on a whitespace-free token, restricted to finite
decimal literals (the special spellings `inf`/`nan` never occur in the
configuration values this parser is given). -/
def pyFloat (s : String) : Option PyFloat :=
  match s.data with
  | '-' :: rest => (pyFloatCore rest).map (fun p => ⟨-(p.1 : Int), p.2⟩)
  | '+' :: rest => (pyFloatCore rest).map (fun p => ⟨(p.1 : Int), p.2⟩)
  | cs => (pyFloatCore cs).map (fun p => ⟨(p.1 : Int), p.2⟩)

/-! ### Special parsers (inpconf.py lines 81..164) -/

/-- `re.match` of the pattern `([0-9]+)\.\.([0-9]+)` against the start of a
string: one or more digits, two dots, one or more digits, anything after.
Returns the two captured integers.  `takeWhile` is equivalent to the greedy
groups here because a shorter digit prefix is still followed by a digit,
never by a dot. -/
def matchRange (s : String) : Option (Nat × Nat) :=
  let cs := s.data
  let d1 := cs.takeWhile Char.isDigit
  match cs.dropWhile Char.isDigit with
  | '.' :: '.' :: rest =>
    let d2 := rest.takeWhile Char.isDigit
    if d1 ≠ [] && d2 ≠ [] then some (digitsVal d1, digitsVal d2) else none
  | _ => none

/-- Python `range(a, b)` as a list of integers. -/
def pyRange (a b : Int) : List Int :=
  (List.range (b - a).toNat).map (fun (k : Nat) => a + (k : Int))

/-- Message of the assertion at inpconf.py line 97. -/
def rangeOrderMsg : String :=
  "First index of the range must be smaller or equal to the second"

/-- Message of the assertion at inpconf.py line 112 (the source interpolates
the raw parameter string). -/
def ionIndexMsg (s : String) : String :=
  "Lowest ion index is smaller than 1 in " ++ s

/-- `ConfigParameters.parse_string_ion_list` (inpconf.py lines 81..114):
either an inclusive 1-based range `a..b` expanded with `range(a-1, b)`, or a
whitespace-separated list of integers, sorted and shifted down by one; every
resulting index must be non-negative. -/
def parse_string_ion_list (par_str : String) : Except PyErr (List Int) :=
  let checked : List Int → Except PyErr (List Int) := fun ion_list =>
    if ion_list.all (fun i => 0 ≤ i) then .ok ion_list
    else .error (.assertionError (ionIndexMsg par_str))
  match matchRange par_str with
  | some (i1, i2) =>
    if i1 ≤ i2 then checked (pyRange ((i1 : Int) - 1) (i2 : Int))
    else .error (.assertionError rangeOrderMsg)
  | none =>
    match (pySplit par_str).mapM pyInt with
    | none => .error (.notImplementedError
        "Only an option with a list of ion indices is implemented")
    | some l_tmp => checked ((l_tmp.insertionSort (· ≤ ·)).map (fun i => i - 1))

/-- Message of the assertion at inpconf.py line 128. -/
def logicalMsg : String :=
  "Logical parameters should be given by either True or False"

/-- `ConfigParameters.parse_string_logical` (inpconf.py lines 121..129):
lower-case the first character of the string; `t` means true, `f` means
false, anything else fails the assertion.  Indexing `par_str[0]` on an empty
string raises an IndexError before the assertion is reached. -/
def parse_string_logical (par_str : String) : Except PyErr Bool :=
  match par_str.data with
  | [] => .error .indexError
  | c :: _ =>
    let first_char := c.toLower
    if first_char == 't' || first_char == 'f' then .ok (first_char == 't')
    else .error (.assertionError logicalMsg)

/-- A parsed transformation matrix: real entries, or complex entries given
as (real part, imaginary part). -/
inductive TMat where
  | real (rows : List (List PyFloat))
  | cplx (rows : List (List (PyFloat × PyFloat)))
  deriving DecidableEq, Repr

/-- Core of Python `s.split(c)` for a single separator character: fields
between consecutive separators, empty fields kept. -/
def splitCharAux (sep : Char) : List Char → List Char → List (List Char)
  | [], acc => [acc.reverse]
  | c :: cs, acc =>
    if c = sep then acc.reverse :: splitCharAux sep cs []
    else splitCharAux sep cs (c :: acc)

/-- Python `s.split(c)` for a one-character separator. -/
def pySplitChar (sep : Char) (s : String) : List String :=
  (splitCharAux sep s.data []).map List.asString

/-- Consecutive pairing of one row, i.e. `row[0::2] + 1j * row[1::2]` for a
row of even length. -/
def pairRow : List PyFloat → List (PyFloat × PyFloat)
  | a :: b :: rest => (a, b) :: pairRow rest
  | _ => []

/-- Message of the assertion at inpconf.py lines 151..153. -/
def raggedMsg (s : String) : String :=
  "Number of columns must be the same:\n" ++ s

/-- Message of the assertion at inpconf.py lines 158..159. -/
def oddColsMsg (s : String) : String :=
  "Complex matrix must contain 2*M values:\n" ++ s

/-- Message of the ValueError at inpconf.py lines 144..146. -/
def cannotParseMsg (s : String) : String :=
  "Cannot parse a matrix string:\n" ++ s

/-- `ConfigParameters.parse_string_tmatrix` (inpconf.py lines 136..164):
split into newline-delimited rows of whitespace-delimited float tokens, all
rows must have the column count of the first row; in complex mode the
column count must be even and consecutive tokens are paired as
(real, imaginary). -/
def parse_string_tmatrix (par_str : String) (real : Bool) : Except PyErr TMat :=
  let str_rows := pySplitChar '\n' par_str
  match str_rows.mapM (fun srow => (pySplit srow).mapM pyFloat) with
  | none => .error (.valueError (cannotParseMsg par_str))
  | some rows =>
    let nm := (rows.headD []).length
    if rows.all (fun row => row.length == nm) then
      if real then .ok (.real rows)
      else
        if nm % 2 == 0 then .ok (.cplx (rows.map pairRow))
        else .error (.assertionError (oddColsMsg par_str))
    else .error (.assertionError (raggedMsg par_str))

/-! ### The configuration document

`ConfigParser` is modelled at its point of use: a document is the list of
its sections in file order; each section carries its (case-preserved) name
and its options as an association list whose keys `ConfigParser` has
already lower-cased.  `cp.get(section, par)` is lookup of the first match. -/

structure Sec where
  name : String
  opts : List (String × String)
  deriving DecidableEq, Repr

structure Doc where
  sections : List Sec
  deriving DecidableEq, Repr

/-- `cp.get(section, par)`, `None` standing for `ConfigParser.NoOptionError`. -/
def getOpt (sec : Sec) (par : String) : Option String :=
  ((sec.opts.find? (fun kv => kv.1 == par)).map (fun kv => kv.2))

/-- A section name lower-cased, as the `re.IGNORECASE` patterns see it. -/
def lowerData (s : String) : List Char :=
  s.data.map Char.toLower

/-- Strip an expected keyword prefix from a character list. -/
def stripKw : List Char → List Char → Option (List Char)
  | [], cs => some cs
  | _ :: _, [] => none
  | k :: ks, c :: cs => if c = k then stripKw ks cs else none

/-- `re.match` of `<kw> +.*` (IGNORECASE) against a section name: the name
starts with the keyword followed by at least one space.  (`.*` then always
succeeds, since `re.match` only anchors the start.) -/
def matchSecKw (kw : List Char) (name : String) : Bool :=
  match stripKw kw (lowerData name) with
  | some (' ' :: _) => true
  | _ => false

/-- `re.match` of `<kw> +([0-9]*)$` (IGNORECASE) followed by `int()` on the
captured group: keyword, one or more spaces, then digits up to the end of
the name.  `none` covers both a failed match (`AttributeError` in the
source) and an empty digit group (`int` raises `ValueError`); the source
turns either into the same `ValueError`. -/
def secIndex (kw : List Char) (name : String) : Option Nat :=
  match stripKw kw (lowerData name) with
  | some rest =>
    let sp := rest.takeWhile (fun c => c = ' ')
    let ds := rest.dropWhile (fun c => c = ' ')
    if sp ≠ [] && ds ≠ [] && ds.all Char.isDigit then some (digitsVal ds)
    else none
  | none => none

/-! ### Shell and group records

A shell dictionary always holds `user_index`, `ion_list` and `lshell`;
optional keys are `Option` fields (`some` = key present).  The group-scoped
keys `shells`, `emin`, `emax`, `normalize`, `normion` are the tentative
fields a `[Shell]` section may carry before consistency resolution. -/

structure ShellR where
  user_index : Nat
  ion_list : List Int
  lshell : Int
  tmatrix : Option TMat := none
  shells : Option (List Int) := none
  emin : Option PyFloat := none
  emax : Option PyFloat := none
  normalize : Option Bool := none
  normion : Option Bool := none
  deriving DecidableEq, Repr

structure GroupR where
  index : Nat
  shells : List Int
  emin : PyFloat
  emax : PyFloat
  normalize : Option Bool := none
  normion : Option Bool := none
  deriving DecidableEq, Repr

/-- Message of the missing-required-parameter `Exception` raised by
`parse_parameter_set` (inpconf.py lines 180..183). -/
def requiredMsg (par secName : String) : String :=
  "Required parameter " ++ par ++ " not found in section [" ++ secName ++ "]"

/-- Message of the `ValueError` Python raises when `int()` cannot parse. -/
def intBaseMsg (v : String) : String :=
  "invalid literal for int() with base 10: " ++ v

/-- Message of the `ValueError` Python raises when `float()` cannot parse. -/
def floatMsg (v : String) : String :=
  "could not convert string to float: " ++ v

/-- `map(int, s.split())`, the conversion of the `shells` parameter. -/
def intList (v : String) : Except PyErr (List Int) :=
  match (pySplit v).mapM pyInt with
  | none => .error (.valueError (intBaseMsg v))
  | some l => .ok l

/-- Best-effort float parameter (group-optional or tentative on a shell):
an absent key is skipped, an unparseable value still raises. -/
def optFloat (sec : Sec) (key : String) : Except PyErr (Option PyFloat) :=
  match getOpt sec key with
  | none => .ok none
  | some v =>
    match pyFloat v with
    | none => .error (.valueError (floatMsg v))
    | some f => .ok (some f)

/-- Best-effort logical parameter. -/
def optLogical (sec : Sec) (key : String) : Except PyErr (Option Bool) :=
  match getOpt sec key with
  | none => .ok none
  | some v => (parse_string_logical v).map some

/-- One iteration of `parse_shells` (inpconf.py lines 246..282): the shell
required schema strictly, then the shell optional schema and both group
schemas best-effort, all merged into one record.  `rtransform` and
`ctransform` write the same internal key `tmatrix`; the source iterates
them in the order of `sh_optional`, modelled here in insertion order, so a
section carrying both keeps the complex one. -/
def parseShellSection (ind : Nat) (sec : Sec) : Except PyErr ShellR := do
  let ion_list ←
    match getOpt sec "ions" with
    | none => .error (.exception (requiredMsg "ions" sec.name))
    | some v => parse_string_ion_list v
  let lshell ←
    match getOpt sec "lshell" with
    | none => .error (.exception (requiredMsg "lshell" sec.name))
    | some v =>
      match pyInt v with
      | none => Except.error (.valueError (intBaseMsg v))
      | some n => Except.ok n
  let t1 : Option TMat ←
    match getOpt sec "rtransform" with
    | none => Except.ok none
    | some v => (parse_string_tmatrix v true).map some
  let tmatrix : Option TMat ←
    match getOpt sec "ctransform" with
    | none => Except.ok t1
    | some v => (parse_string_tmatrix v false).map some
  let shl : Option (List Int) ←
    match getOpt sec "shells" with
    | none => Except.ok none
    | some v => (intList v).map some
  let emin ← optFloat sec "emin"
  let emax ← optFloat sec "emax"
  let normalize ← optLogical sec "normalize"
  let normion ← optLogical sec "normion"
  Except.ok { user_index := ind, ion_list := ion_list, lshell := lshell,
              tmatrix := tmatrix, shells := shl, emin := emin, emax := emax,
              normalize := normalize, normion := normion }

/-- `ConfigParameters.parse_shells` (inpconf.py lines 202..282): locate the
`[Shell N]` sections, extract and check their indices, and build one record
per shell in ascending `user_index` order.  Returns the records and
`nshells`. -/
def parse_shells (doc : Doc) : Except PyErr (List ShellR × Nat) :=
  let sec_shells := doc.sections.filter (fun sec => matchSecKw "shell".data sec.name)
  let nshells := sec_shells.length
  if nshells = 0 then
    .error (.assertionError "No projected shells found in the input file")
  else
    match sec_shells.mapM (fun sec => secIndex "shell".data sec.name) with
    | none => .error (.valueError "Failed to extract shell indices from a list")
    | some sh_inds =>
      if sh_inds.Nodup then
        let lookup : Nat → Except PyErr Sec := fun i =>
          match (sh_inds.zip sec_shells).find? (fun p => p.1 == i) with
          | some p => .ok p.2
          | none => .error .indexError
        ((sh_inds.insertionSort (· ≤ ·)).mapM
            (fun i => (lookup i).bind (parseShellSection i))).map
          (fun shells => (shells, nshells))
      else .error (.assertionError "There must be no shell with the same index!")

/-- One iteration of `parse_groups` (inpconf.py lines 303..328): extract the
numeric group index from the section name, then the group required schema
strictly and the optional schema best-effort. -/
def parseGroupSection (sec : Sec) : Except PyErr GroupR := do
  let index ←
    match secIndex "group".data sec.name with
    | none => Except.error (.valueError
        ("Failed to extract group index from a group name: " ++ sec.name))
    | some i => Except.ok i
  let shells ←
    match getOpt sec "shells" with
    | none => .error (.exception (requiredMsg "shells" sec.name))
    | some v => intList v
  let emin ←
    match getOpt sec "emin" with
    | none => Except.error (.exception (requiredMsg "emin" sec.name))
    | some v =>
      match pyFloat v with
      | none => Except.error (.valueError (floatMsg v))
      | some f => Except.ok f
  let emax ←
    match getOpt sec "emax" with
    | none => Except.error (.exception (requiredMsg "emax" sec.name))
    | some v =>
      match pyFloat v with
      | none => Except.error (.valueError (floatMsg v))
      | some f => Except.ok f
  let normalize ← optLogical sec "normalize"
  let normion ← optLogical sec "normion"
  Except.ok { index := index, shells := shells, emin := emin, emax := emax,
              normalize := normalize, normion := normion }

instance : DecidableRel (fun (a b : GroupR) => a.index ≤ b.index) :=
  fun a b => Nat.decLe a.index b.index

/-- `ConfigParameters.parse_groups` (inpconf.py lines 289..332): locate the
`[Group N]` sections, build one record per group in file order, then sort
by declared index.  Returns the records and `ngroups`. -/
def parse_groups (doc : Doc) : Except PyErr (List GroupR × Nat) :=
  let sec_groups := doc.sections.filter (fun sec => matchSecKw "group".data sec.name)
  let ngroups := sec_groups.length
  (sec_groups.mapM parseGroupSection).map
    (fun groups => (groups.insertionSort (fun a b => a.index ≤ b.index), ngroups))

/-! ### The consistency engine (inpconf.py lines 339..427)

`groups_shells_consistency` is modelled statement by statement.  Three
statements of the source are genuine runtime faults and are embedded as the
errors Python raises for them:

* Zero-group branch, optional-parameter loop (line 372):
  `self.shells[ind].pop(key)` reads the local name `ind`, which is assigned
  nowhere before line 394 — the first iteration of the (never-empty) loop
  over `gr_optional` raises an UnboundLocalError, a `NameError` on `ind`.
  The later `self.groups.update({...})` (line 377, an `AttributeError`:
  lists have no `update`) is therefore never reached.
* Reference-resolution loop (line 394): `ind, shell =
  find_shell_by_user_index(user_ind)`.  The nested function returns the
  shell dictionary alone (line 386); unpacking a dictionary iterates its
  keys, and a shell dictionary always has at least the three keys
  `user_index`, `ion_list` and `lshell` (see `ShellR.dictSize`), so the
  unpacking raises `ValueError: too many values to unpack` whenever the
  reference resolves.  When it does not resolve, the `KeyError` raised
  inside the function is caught and re-raised as the unknown-shell
  `Exception` (line 396, with its missing closing parenthesis restored).
-/

/-- The four states `ConfigParameters` carries between `parse_shells`,
`parse_groups` and `groups_shells_consistency`. -/
structure PState where
  shells : List ShellR
  groups : List GroupR
  nshells : Nat
  ngroups : Nat
  deriving DecidableEq, Repr

/-- Number of keys of the Python dictionary a `ShellR` models. -/
def ShellR.dictSize (sh : ShellR) : Nat :=
  3 + (if sh.tmatrix.isSome then 1 else 0) + (if sh.shells.isSome then 1 else 0)
    + (if sh.emin.isSome then 1 else 0) + (if sh.emax.isSome then 1 else 0)
    + (if sh.normalize.isSome then 1 else 0) + (if sh.normion.isSome then 1 else 0)

theorem ShellR.three_le_dictSize (sh : ShellR) : 3 ≤ sh.dictSize := by
  simp only [ShellR.dictSize]
  omega

/-- The external names of the required group parameters, in the order the
message of the incomplete-implicit-group `KeyError` lists them
(`self.gr_required.keys()`, lines 362..366). -/
def grRequiredKeys : List String :=
  ["shells", "emin", "emax"]

/-- `find_shell_by_user_index` (lines 383..387): the first shell whose
`user_index` equals the referenced index, `none` for the `KeyError`. -/
def find_shell_by_user_index (shells : List ShellR) (uindex : Int) : Option ShellR :=
  shells.find? (fun sh => ((sh.user_index : Int)) == uindex)

/-- Message of the unknown-shell-reference `Exception` (line 396). -/
def unknownShellMsg (uindex : Int) (grIndex : Nat) : String :=
  "Shell " ++ toString uindex ++ " reference in group " ++ toString grIndex
    ++ " does not exist"

/-- The reference-resolution loop (lines 389..421) over the groups in
order: the first referenced index of the first group with a non-empty
`shells` list either resolves — and the dictionary unpacking at line 394
raises its `ValueError` — or does not, raising the unknown-shell
`Exception`.  Only when every group has an empty reference list does the
loop terminate, with `sh_inds` empty. -/
def resolveRefs (shells : List ShellR) : List GroupR → Except PyErr (List Nat)
  | [] => .ok []
  | g :: gs =>
    match g.shells with
    | [] => resolveRefs shells gs
    | u :: _ =>
      match find_shell_by_user_index shells u with
      | some _ => .error (.valueError "too many values to unpack")
      | none => .error (.exception (unknownShellMsg u g.index))

/-- `ConfigParameters.groups_shells_consistency` (lines 339..427).

Zero groups: require exactly one shell, then move the required group
parameters off the (first) shell — a missing one raises the `KeyError`
listing `gr_required.keys()` — and then the optional-parameter loop raises
its `NameError` on `ind` (see the section comment).  `self.shells[0]` on an
empty list raises an IndexError.

One or more groups: run the resolution loop; if it ever finishes (all
reference lists empty), `sorted(set(sh_inds))` must equal
`range(self.nshells)` — with `sh_inds` empty this assertion fails for every
`nshells ≥ 1`. -/
def groups_shells_consistency (st : PState) : Except PyErr PState :=
  if st.ngroups = 0 then
    if st.nshells ≠ 1 then
      .error (.assertionError
        "At least one group must be defined if there are more than one shells.")
    else
      match st.shells with
      | [] => .error .indexError
      | sh :: _ =>
        if sh.shells.isSome && sh.emin.isSome && sh.emax.isSome then
          .error (.nameError "ind")
        else .error (.keyError grRequiredKeys)
  else
    match resolveRefs st.shells st.groups with
    | .error e => .error e
    | .ok sh_inds =>
      let sh_refs_used := (sh_inds.eraseDups).insertionSort (· ≤ ·)
      if sh_refs_used = List.range st.nshells then .ok st
      else .error (.assertionError "Some shells are not inside any of the groups")

/-- `ConfigParameters.parse_input` (lines 437..464): `parse_shells`, then
`parse_groups`, then `groups_shells_consistency`; the remainder of the
function (lines 447..464) begins with `xrange(nsections)` where neither
`nsections` nor the other names it uses (`sections`, `cp`, `required`) are
defined in its scope, so reaching it raises a `NameError` on `nsections`. -/
def parse_input (doc : Doc) : Except PyErr PState := do
  let (shells, nshells) ← parse_shells doc
  let (groups, ngroups) ← parse_groups doc
  let _st ← groups_shells_consistency
    { shells := shells, groups := groups, nshells := nshells, ngroups := ngroups }
  .error (.nameError "nsections")

/-! ### Helper lemmas -/

theorem pyRange_shift (a b : Nat) :
    pyRange ((a : Int) - 1) (b : Int)
      = (List.range (b + 1 - a)).map (fun (k : Nat) => (a : Int) - 1 + (k : Int)) := by
  unfold pyRange
  have h : ((b : Int) - ((a : Int) - 1)).toNat = b + 1 - a := by omega
  rw [h]

theorem pyRange_all_nonneg {a b : Nat} (h : 1 ≤ a) :
    ((pyRange ((a : Int) - 1) (b : Int)).all (fun i => 0 ≤ i)) = true := by
  rw [List.all_eq_true]
  intro x hx
  unfold pyRange at hx
  rw [List.mem_map] at hx
  obtain ⟨k, hk, rfl⟩ := hx
  rw [decide_eq_true_eq]
  omega

theorem pyRange_zero_not_all (b : Nat) :
    ((pyRange ((0 : Int) - 1) (b : Int)).all (fun i => 0 ≤ i)) = false := by
  rw [← Bool.not_eq_true, List.all_eq_true]
  intro hall
  have hm : (-1 : Int) ∈ pyRange ((0 : Int) - 1) (b : Int) := by
    unfold pyRange
    rw [List.mem_map]
    refine ⟨0, ?_, by omega⟩
    rw [List.mem_range]
    omega
  have := hall _ hm
  simp at this

theorem all_shift (ks : List Int) :
    (((ks.insertionSort (· ≤ ·)).map (fun k => k - 1)).all (fun i => 0 ≤ i))
      = (ks.all (fun k => 1 ≤ k)) := by
  cases h : ks.all (fun k => 1 ≤ k) with
  | true =>
    rw [List.all_eq_true] at h ⊢
    intro x hx
    rw [List.mem_map] at hx
    obtain ⟨k, hk, rfl⟩ := hx
    rw [List.mem_insertionSort] at hk
    have := h k hk
    rw [decide_eq_true_eq] at this ⊢
    omega
  | false =>
    rw [← Bool.not_eq_true, List.all_eq_true] at h ⊢
    intro hall
    apply h
    intro k hk
    have hm : k - 1 ∈ (ks.insertionSort (· ≤ ·)).map (fun k => k - 1) := by
      rw [List.mem_map]
      exact ⟨k, (List.mem_insertionSort _).mpr hk, rfl⟩
    have := hall _ hm
    rw [decide_eq_true_eq] at this ⊢
    omega

theorem bind_error_eq {α β : Type} (e : PyErr) (f : α → Except PyErr β) :
    (Except.error e >>= f : Except PyErr β) = Except.error e := rfl

theorem bind_ok_eq {α β : Type} (a : α) (f : α → Except PyErr β) :
    ((Except.ok a : Except PyErr α) >>= f) = f a := rfl

/-! ### The claims -/

/-- Claim C1 (the code contradicts it): `parse_input` never completes
successfully on any document — `groups_shells_consistency` has no
error-free path (see the section comment above it), and even past it the
tail of `parse_input` raises a NameError on the undefined `nsections` —
so the claimed (shells, groups) model is never returned. -/
theorem claim_C1 (doc : Doc) : ∃ e : PyErr, parse_input doc = .error e := by
  cases h1 : parse_shells doc with
  | error e => exact ⟨e, by simp [parse_input, h1, bind_error_eq]⟩
  | ok p =>
    obtain ⟨shells, nshells⟩ := p
    cases h2 : parse_groups doc with
    | error e =>
      exact ⟨e, by simp [parse_input, h1, h2, bind_ok_eq, bind_error_eq]⟩
    | ok q =>
      obtain ⟨groups, ngroups⟩ := q
      cases h3 : groups_shells_consistency
          { shells := shells, groups := groups,
            nshells := nshells, ngroups := ngroups } with
      | error e =>
        exact ⟨e, by simp [parse_input, h1, h2, h3, bind_ok_eq, bind_error_eq]⟩
      | ok st =>
        exact ⟨.nameError "nsections",
          by simp [parse_input, h1, h2, h3, bind_ok_eq, bind_error_eq]⟩

/-- A single-shell, zero-group document whose shell section carries all the
required group parameters — the claimed implicit-group synthesis case. -/
def docC2 : Doc :=
  ⟨[⟨"Shell 1", [("ions", "1"), ("lshell", "2"), ("shells", "1"),
                 ("emin", "-3.0"), ("emax", "4.0")]⟩]⟩

/-- A two-shell, zero-group document — the claimed ambiguous case. -/
def docC2b : Doc :=
  ⟨[⟨"Shell 1", [("ions", "1"), ("lshell", "2")]⟩,
    ⟨"Shell 2", [("ions", "2"), ("lshell", "2")]⟩]⟩

/-- Claim C2 (the code contradicts its synthesis half): with zero groups
and more than one shell the ambiguous-grouping assertion does fire as
claimed (second conjunct), but in the single-shell case no GroupRecord is
ever synthesized: after moving the required group fields off the shell,
the optional-parameter loop reads the unbound local `ind` and the engine
dies with a NameError (first conjunct); the statement that would have
recorded the shell reference is `self.groups.update({'shells': 0})`, an
`AttributeError` on a list which, had it run, would also not build the
claimed singleton `[user_index]`. -/
theorem claim_C2 :
    parse_input docC2 = .error (.nameError "ind")
    ∧ parse_input docC2b = .error (.assertionError
        "At least one group must be defined if there are more than one shells.") :=
  ⟨by decide, by decide⟩

/-- Two shells, one group referencing only the first — the claimed
unreferenced-shell case. -/
def docC3 : Doc :=
  ⟨[⟨"Shell 1", [("ions", "1"), ("lshell", "2")]⟩,
    ⟨"Shell 2", [("ions", "2"), ("lshell", "2")]⟩,
    ⟨"Group 1", [("shells", "1"), ("emin", "-3.0"), ("emax", "4.0")]⟩]⟩

/-- Claim C3 (the code contradicts it): on the two-shell document whose
only group references shell 1 alone, the claim demands the
unreferenced-shell failure naming shell 2; the code instead dies in the
resolution loop on its first resolved reference, unpacking the shell
dictionary returned by `find_shell_by_user_index` — the coverage check
`sorted(set(sh_inds)) == range(nshells)` is unreachable for any document
with a non-empty group. -/
theorem claim_C3 :
    parse_input docC3 = .error (.valueError "too many values to unpack") := by
  decide

/-- One shell, one group whose reference list starts with a resolvable
index followed by a dangling one. -/
def docC4 : Doc :=
  ⟨[⟨"Shell 1", [("ions", "1"), ("lshell", "2")]⟩,
    ⟨"Group 1", [("shells", "1 5"), ("emin", "-3.0"), ("emax", "4.0")]⟩]⟩

/-- One shell, one group whose only reference is dangling. -/
def docC4b : Doc :=
  ⟨[⟨"Shell 1", [("ions", "1"), ("lshell", "2")]⟩,
    ⟨"Group 1", [("shells", "5"), ("emin", "-3.0"), ("emax", "4.0")]⟩]⟩

/-- Claim C4 (the code contradicts its universal half): when the dangling
index is the very first reference the resolution loop meets, the
unknown-shell `Exception` is raised naming the group and the index as
claimed (second conjunct); but whenever any resolvable reference precedes
it, the dictionary-unpacking `ValueError` at line 394 fires first (first
conjunct, reference list `1 5` with only shell 1 declared), so the claimed
error is not raised for every dangling reference. -/
theorem claim_C4 :
    parse_input docC4 = .error (.valueError "too many values to unpack")
    ∧ parse_input docC4b = .error (.exception (unknownShellMsg 5 1)) :=
  ⟨by decide, by decide⟩

/-- One shell carrying a tentative group-scoped field (`emin`) while an
explicit group referencing it sets the same field. -/
def docC5 : Doc :=
  ⟨[⟨"Shell 1", [("ions", "1"), ("lshell", "2"), ("emin", "-1.5")]⟩,
    ⟨"Group 1", [("shells", "1"), ("emin", "-3.0"), ("emax", "4.0")]⟩]⟩

/-- Claim C5 (the code contradicts it): the claimed advisory-and-strip
behaviour lives at lines 399..421, after the `ind, shell = ...` unpacking
of line 394; since that unpacking raises its `ValueError` on every
resolved reference, the stripping code is unreachable and validation never
completes, let alone leaves a shell cleansed of group-scoped keys. -/
theorem claim_C5 :
    parse_input docC5 = .error (.valueError "too many values to unpack") := by
  decide

/-- One shell, two groups both referencing it — the claimed multi-group
membership case. -/
def docC7 : Doc :=
  ⟨[⟨"Shell 1", [("ions", "1"), ("lshell", "2")]⟩,
    ⟨"Group 1", [("shells", "1"), ("emin", "-3.0"), ("emax", "4.0")]⟩,
    ⟨"Group 2", [("shells", "1"), ("emin", "-5.0"), ("emax", "6.0")]⟩]⟩

/-- Claim C7 (the code contradicts it): the claim demands that a document
in which one shell is referenced by two groups, every shell referenced,
validates successfully; the code instead dies on the first resolved
reference with the unpacking `ValueError` — no document with a non-empty
group validates at all. -/
theorem claim_C7 :
    parse_input docC7 = .error (.valueError "too many values to unpack") := by
  decide

/-- The shell section of the claim C6 counterexample document: of the
three required group keys, `shells` and `emin` are present and only `emax`
is missing. -/
def secC6 : Sec :=
  ⟨"Shell 1", [("ions", "1"), ("lshell", "2"), ("shells", "1"),
               ("emin", "-3.0")]⟩

/-- The claim C6 counterexample document: single shell, zero groups,
exactly one required group key (`emax`) absent. -/
def docC6 : Doc :=
  ⟨[secC6]⟩

/-- Counterexample to claim C6 as stated: on a document whose only missing
required group key is `emax` (the shell section does declare `shells` and
`emin`), the incomplete-implicit-group `KeyError` lists all of
`gr_required.keys()` — `shells`, `emin` and `emax` — not the list `[emax]`
of missing keys the claim describes. -/
theorem claim_C6_counterexample :
    parse_input docC6 = .error (.keyError grRequiredKeys)
    ∧ getOpt secC6 "shells" = some "1"
    ∧ getOpt secC6 "emin" = some "-3.0"
    ∧ getOpt secC6 "emax" = none
    ∧ grRequiredKeys ≠ ["emax"] :=
  ⟨by decide, by decide, by decide, by decide, by decide⟩

/-- Claim C6 as amended: in the zero-group single-shell case, if any
required group field is absent from the shell draft, the defaulting step
fails with the incomplete-implicit-group error, whose message lists all
the required group keys (`shells`, `emin`, `emax`), not only the missing
ones. -/
theorem claim_C6 (st : PState) (sh : ShellR) (rest : List ShellR)
    (hg : st.ngroups = 0) (hn : st.nshells = 1) (hs : st.shells = sh :: rest)
    (hmiss : sh.shells = none ∨ sh.emin = none ∨ sh.emax = none) :
    groups_shells_consistency st = .error (.keyError grRequiredKeys) := by
  have hb : (sh.shells.isSome && sh.emin.isSome && sh.emax.isSome) = false := by
    rcases hmiss with h | h | h <;> simp [h]
  simp only [groups_shells_consistency, hg, hn, hs, hb]
  simp

/-- Witness for the amended claim C6: a state with zero groups and one
shell that carries none of the required group fields. -/
theorem claim_C6_witness :
    groups_shells_consistency
        { shells := [{ user_index := 1, ion_list := [0], lshell := 2 }],
          groups := [], nshells := 1, ngroups := 0 }
      = .error (.keyError grRequiredKeys) :=
  claim_C6 _ { user_index := 1, ion_list := [0], lshell := 2 } [] rfl rfl rfl
    (Or.inl rfl)

/-- Claim C8: the ion-list parser, on an input matching `<int>..<int>`,
fails with the range-order error when the first bound exceeds the second
and otherwise returns the contiguous ascending zero-based sequence of the
inclusive 1-based range (`pyRange (a-1) b`, spelled out as a `List.range`
enumeration); on whitespace-separated integers it returns them sorted
ascending with 1 subtracted from each; in either form a resulting index
below 0 gives the index-range error (for the range form the offending case
is a lower bound of 0, for the list form some entry below 1). -/
theorem claim_C8 (s : String) :
    (∀ a b : Nat, matchRange s = some (a, b) → b < a →
      parse_string_ion_list s = .error (.assertionError rangeOrderMsg))
    ∧ (∀ a b : Nat, matchRange s = some (a, b) → a ≤ b → 1 ≤ a →
      parse_string_ion_list s = .ok (pyRange ((a : Int) - 1) (b : Int))
        ∧ pyRange ((a : Int) - 1) (b : Int)
            = (List.range (b + 1 - a)).map (fun (k : Nat) => (a : Int) - 1 + (k : Int)))
    ∧ (∀ b : Nat, matchRange s = some (0, b) →
      parse_string_ion_list s = .error (.assertionError (ionIndexMsg s)))
    ∧ (∀ ks : List Int, matchRange s = none → (pySplit s).mapM pyInt = some ks →
      (ks.all (fun k => 1 ≤ k) = true →
        parse_string_ion_list s
            = .ok ((ks.insertionSort (· ≤ ·)).map (fun k => k - 1))
          ∧ List.Sorted (· ≤ ·) ((ks.insertionSort (· ≤ ·)).map (fun k => k - 1))
          ∧ ((ks.insertionSort (· ≤ ·)).map (fun k => k - 1)).Perm
              (ks.map (fun k => k - 1)))
      ∧ (ks.all (fun k => 1 ≤ k) = false →
        parse_string_ion_list s = .error (.assertionError (ionIndexMsg s)))) := by
  refine ⟨?_, ?_, ?_, ?_⟩
  · intro a b hm hba
    simp only [parse_string_ion_list, hm]
    rw [if_neg (by omega)]
  · intro a b hm hab ha
    refine ⟨?_, pyRange_shift a b⟩
    simp only [parse_string_ion_list, hm]
    rw [if_pos hab, pyRange_all_nonneg ha]
    simp
  · intro b hm
    simp only [parse_string_ion_list, hm]
    rw [if_pos (by omega)]
    simp only [Nat.cast_zero, pyRange_zero_not_all b]
    simp
  · intro ks hm hsome
    constructor
    · intro hall
      refine ⟨?_, ?_, ?_⟩
      · simp only [parse_string_ion_list, hm, hsome]
        rw [all_shift ks, hall]
        simp
      · exact List.Pairwise.map _ (fun x y hxy => by omega)
          (List.sorted_insertionSort _ ks)
      · exact List.Perm.map _ (List.perm_insertionSort _ ks)
    · intro hall
      simp only [parse_string_ion_list, hm, hsome]
      rw [all_shift ks, hall]
      simp

/-- Witness for claim C8 at the four inputs named by the specification:
`3..5`, `5..3`, `3 1 2` and `0`. -/
theorem claim_C8_witness :
    parse_string_ion_list "3..5" = .ok [2, 3, 4]
    ∧ parse_string_ion_list "5..3" = .error (.assertionError rangeOrderMsg)
    ∧ parse_string_ion_list "3 1 2" = .ok [0, 1, 2]
    ∧ parse_string_ion_list "0" = .error (.assertionError (ionIndexMsg "0")) := by
  refine ⟨?_, ?_, ?_, ?_⟩
  · have h := ((claim_C8 "3..5").2.1 3 5 (by decide) (by decide) (by decide)).1
    rw [h]
    decide
  · exact (claim_C8 "5..3").1 5 3 (by decide) (by decide)
  · have h := (((claim_C8 "3 1 2").2.2.2 [3, 1, 2] (by decide) (by decide)).1
      (by decide)).1
    rw [h]
    decide
  · exact ((claim_C8 "0").2.2.2 [0] (by decide) (by decide)).2 (by decide)

/-- Claim C9: the matrix parser fails with the ragged-matrix error whenever
two newline-delimited rows have different token counts; in complex mode it
fails with the odd-columns error when the column count is odd and otherwise
pairs consecutive tokens of each row as (real, imaginary).  The hypothesis
fixes the parsed float tokens of each row (the spec describes the rows as
numeric tokens). -/
theorem claim_C9 (s : String) (real : Bool) (rows : List (List PyFloat))
    (hp : (pySplitChar '\n' s).mapM (fun srow => (pySplit srow).mapM pyFloat)
      = some rows) :
    (∀ r1 ∈ rows, ∀ r2 ∈ rows, r1.length ≠ r2.length →
      parse_string_tmatrix s real = .error (.assertionError (raggedMsg s)))
    ∧ ((∀ r ∈ rows, r.length = (rows.headD []).length) → real = false →
        ((rows.headD []).length % 2 = 1 →
          parse_string_tmatrix s real = .error (.assertionError (oddColsMsg s)))
        ∧ ((rows.headD []).length % 2 = 0 →
          parse_string_tmatrix s real = .ok (.cplx (rows.map pairRow)))) := by
  constructor
  · intro r1 h1 r2 h2 hne
    simp only [parse_string_tmatrix, hp]
    have hall : (rows.all (fun row => row.length == (rows.headD []).length))
        = false := by
      rw [← Bool.not_eq_true, List.all_eq_true]
      intro hA
      have e1 := hA r1 h1
      have e2 := hA r2 h2
      rw [beq_iff_eq] at e1 e2
      exact hne (e1.trans e2.symm)
    rw [hall]
    simp
  · intro hEq hreal
    have hall : (rows.all (fun row => row.length == (rows.headD []).length))
        = true := by
      rw [List.all_eq_true]
      intro r hr
      rw [beq_iff_eq]
      exact hEq r hr
    constructor
    · intro hodd
      simp only [parse_string_tmatrix, hp, hall, hreal]
      have hc : ((rows.headD []).length % 2 == 0) = false := by
        rw [beq_eq_false_iff_ne]
        omega
      rw [hc]
      simp
    · intro heven
      simp only [parse_string_tmatrix, hp, hall, hreal]
      have hc : ((rows.headD []).length % 2 == 0) = true := by
        rw [beq_iff_eq]
        omega
      rw [hc]
      simp

/-- Witness for claim C9 at the inputs named by the specification: the one
row `1 2 3 4` in complex mode pairs into the 1×2 matrix `[[1+2i, 3+4i]]`
(`⟨m, e⟩` denotes `m·10^e`), `1 2 3` in complex mode has an odd column
count, and `1 2` over `3` is ragged. -/
theorem claim_C9_witness :
    parse_string_tmatrix "1 2 3 4" false
        = .ok (.cplx [[(⟨1, 0⟩, ⟨2, 0⟩), (⟨3, 0⟩, ⟨4, 0⟩)]])
    ∧ parse_string_tmatrix "1 2 3" false
        = .error (.assertionError (oddColsMsg "1 2 3"))
    ∧ parse_string_tmatrix "1 2\n3" true
        = .error (.assertionError (raggedMsg "1 2\n3")) := by
  refine ⟨?_, ?_, ?_⟩
  · have h := ((claim_C9 "1 2 3 4" false [[⟨1, 0⟩, ⟨2, 0⟩, ⟨3, 0⟩, ⟨4, 0⟩]]
      (by decide)).2 (by decide) rfl).2 (by decide)
    rw [h]
    decide
  · exact ((claim_C9 "1 2 3" false [[⟨1, 0⟩, ⟨2, 0⟩, ⟨3, 0⟩]]
      (by decide)).2 (by decide) rfl).1 (by decide)
  · exact (claim_C9 "1 2\n3" true [[⟨1, 0⟩, ⟨2, 0⟩], [⟨3, 0⟩]] (by decide)).1
      [⟨1, 0⟩, ⟨2, 0⟩] (by decide) [⟨3, 0⟩] (by decide) (by decide)

/-- Claim C10: the boolean parser is total only on non-empty strings: on a
non-empty input it returns true when the lower-cased first character is
`t`, false when it is `f`, and fails with the invalid-boolean assertion
otherwise; on the empty string the unguarded `par_str[0]` raises an
IndexError instead. -/
theorem claim_C10 (s : String) :
    (s.data = [] → parse_string_logical s = .error .indexError)
    ∧ (∀ c cs, s.data = c :: cs →
        (c.toLower = 't' → parse_string_logical s = .ok true)
        ∧ (c.toLower = 'f' → parse_string_logical s = .ok false)
        ∧ (c.toLower ≠ 't' → c.toLower ≠ 'f' →
            parse_string_logical s = .error (.assertionError logicalMsg))) := by
  constructor
  · intro h
    simp only [parse_string_logical, h]
  · intro c cs h
    refine ⟨?_, ?_, ?_⟩
    · intro ht
      simp only [parse_string_logical, h, ht]
      decide
    · intro hf
      simp only [parse_string_logical, h, hf]
      decide
    · intro h1 h2
      simp only [parse_string_logical, h]
      have hc : (c.toLower == 't' || c.toLower == 'f') = false := by
        simp [h1, h2]
      rw [hc]
      simp

/-- Witness for claim C10 at the inputs named by the specification:
`True`, `F`, `x` and the empty string. -/
theorem claim_C10_witness :
    parse_string_logical "True" = .ok true
    ∧ parse_string_logical "F" = .ok false
    ∧ parse_string_logical "x" = .error (.assertionError logicalMsg)
    ∧ parse_string_logical "" = .error .indexError := by
  refine ⟨?_, ?_, ?_, ?_⟩
  · exact ((claim_C10 "True").2 'T' ['r', 'u', 'e'] (by decide)).1 (by decide)
  · exact ((claim_C10 "F").2 'F' [] (by decide)).2.1 (by decide)
  · exact ((claim_C10 "x").2 'x' [] (by decide)).2.2 (by decide) (by decide)
  · exact (claim_C10 "").1 (by decide)

end InpConf
